import Mathlib

/-!
Shallow embedding of the RTIC scheduling core of the lora-wl firmware
(src/main.rs): the event-dispatch task, the response-handling task, the
timer-arming task and the two interrupt handlers, together with the shared
resource store they operate on.

External collaborators (the lorawan-device protocol state machine, the
STM32WL HAL peripherals) are represented at their interface boundary:
the protocol state is an opaque type parameter P and its single transition
operation handle_event, as well as take_data_downlink, are explicit
function arguments; peripheral reads that can fail are Except-valued
arguments.  Machine integers (u16/u32) are Nat with the explicit range
check that the source performs.

A task invocation returns Option (SysState P): some s is a normal return
leaving the shared store in state s, none is a panic (on this target a
system reset), which in the source is an unwrap() failing.  Tasks whose
claims need statement ordering additionally return a trace of effects in
source order.
-/

/-- Events of the lorawan module's radio layer, as used by main.rs:
lorawan::Event::Irq(status, irq_status). -/
inductive LoraPhyEvent where
  | Irq (status : Nat) (irqStatus : Nat)
  deriving DecidableEq, Repr

/-- lorawan_device::radio::Event, the radio-event payload of a dispatch
event.  Configuration and buffer arguments are opaque to the scheduling
core and represented by Nat / List Nat tokens. -/
inductive RadioEvent where
  | TxRequest (cfg : Nat) (buf : List Nat)
  | RxRequest (cfg : Nat)
  | CancelRx
  | PhyEvent (phy : LoraPhyEvent)
  deriving DecidableEq, Repr

/-- Payload of a SendDataRequest, opaque to the scheduling core. -/
structure SendData where
  data : List Nat
  port : Nat
  confirmed : Bool
  deriving DecidableEq, Repr

/-- lorawan_device::Event: the closed event union consumed by the
event-dispatch task. -/
inductive LorawanEvent where
  | NewSessionRequest
  | RadioEvent (e : RadioEvent)
  | TimeoutFired
  | SendDataRequest (e : SendData)
  deriving DecidableEq, Repr

/-- lorawan_device::Response: the closed response union produced by the
protocol state machine, one per dispatch invocation. -/
inductive LorawanResponse where
  | TimeoutRequest (ms : Nat)
  | JoinSuccess
  | ReadyToSend
  | DownlinkReceived (fcntDown : Nat)
  | NoAck
  | NoJoinAccept
  | SessionExpired
  | NoUpdate
  | UplinkSending (fcntUp : Nat)
  | JoinRequestSending
  deriving DecidableEq, Repr

/-- lorawan_device::Error: the protocol-layer error taxonomy.  The payloads
of the source variants are opaque to the scheduling core. -/
inductive LorawanError where
  | Radio
  | Session
  | NoSession
  deriving DecidableEq, Repr

/-- lorawan_encoding FRMPayload as matched by main.rs (Data is the only
variant the code inspects). -/
inductive FRMPayload where
  | Data (d : List Nat)
  | MACCommands (c : List Nat)
  | Empty
  deriving DecidableEq, Repr

instance {ε α : Type} [DecidableEq ε] [DecidableEq α] :
    DecidableEq (Except ε α) := fun a b =>
  match a, b with
  | .error x, .error y =>
    if h : x = y then isTrue (congrArg Except.error h)
    else isFalse (fun c => h (Except.error.inj c))
  | .error _, .ok _ => isFalse (fun c => Except.noConfusion c)
  | .ok _, .error _ => isFalse (fun c => Except.noConfusion c)
  | .ok x, .ok y =>
    if h : x = y then isTrue (congrArg Except.ok h)
    else isFalse (fun c => h (Except.ok.inj c))

/-- A pending data downlink held by the protocol state: its FOpts MAC
commands and its (fallible) FRM-payload decode, as exposed through
fhdr().fopts() and frm_payload(). -/
structure Downlink where
  fopts : List Nat
  frm : Except Nat FRMPayload
  deriving DecidableEq, Repr

/-- The LPTIM1 low-power timer as the core sees it: the current counter
value, the compare-match interrupt flag, and the log of start(ticks)
invocations issued to the peripheral. -/
structure LpTim where
  cnt : Nat
  cmpm : Bool
  startCalls : List Nat
  deriving DecidableEq, Repr

/-- The shared resource store plus the RTIC spawn queues: the movable
protocol-state slot (Option cell), the RNG peripheral-clock enable bit of
the RCC, the timer handle, and the pending-invocation queues of the three
software tasks. -/
structure SysState (P : Type) where
  lorawan : Option P
  rngClockEnabled : Bool
  lptim : LpTim
  pendingEvents : List LorawanEvent
  pendingResponses : List (Except LorawanError LorawanResponse)
  pendingTimerReqs : List Nat
  deriving DecidableEq, Repr

/-- RTIC task capacity of lorawan_event (default capacity 1). -/
def eventCapacity : Nat := 1

/-- RTIC task capacity of lorawan_response (default capacity 1). -/
def responseCapacity : Nat := 1

/-- RTIC task capacity of set_timer (default capacity 1). -/
def timerCapacity : Nat := 1

/-- ctx.spawn.lorawan_event(e): enqueue an event for the dispatch task;
fails (DispatchOverflow) when the task's queue is saturated. -/
def spawnLorawanEvent {P : Type} (s : SysState P) (e : LorawanEvent) :
    Except Unit (SysState P) :=
  if s.pendingEvents.length < eventCapacity then
    .ok { s with pendingEvents := s.pendingEvents ++ [e] }
  else .error ()

/-- ctx.spawn.lorawan_response(r): enqueue a response for the
response-handling task; fails when saturated. -/
def spawnLorawanResponse {P : Type} (s : SysState P)
    (r : Except LorawanError LorawanResponse) : Except Unit (SysState P) :=
  if s.pendingResponses.length < responseCapacity then
    .ok { s with pendingResponses := s.pendingResponses ++ [r] }
  else .error ()

/-- ctx.spawn.set_timer(ms): enqueue a timer-arm request; fails when
saturated. -/
def spawnSetTimer {P : Type} (s : SysState P) (ms : Nat) :
    Except Unit (SysState P) :=
  if s.pendingTimerReqs.length < timerCapacity then
    .ok { s with pendingTimerReqs := s.pendingTimerReqs ++ [ms] }
  else .error ()

/-- Internal failure modes of the RNG peripheral (hal::rng), opaque to the
caller of get_random_u32. -/
inductive RngError where
  | fault
  deriving DecidableEq, Repr

/-- get_random_u32 (main.rs:41-44): rng.try_u32().unwrap_or(0xFAFAFAFA).
The RNG peripheral's fallible read is the explicit argument. -/
def get_random_u32 (tryU32 : Except RngError Nat) : Nat :=
  match tryU32 with
  | .ok v => v
  | .error _ => 0xFAFAFAFA

/-- Effects of a task invocation, in source statement order. -/
inductive Eff where
  | enableRngClock
  | slotTake (got : Bool)
  | transition
  | slotReplace
  | spawnEvent (e : LorawanEvent)
  | spawnTimer (ms : Nat)
  | takeDownlink (got : Bool)
  | decodeData (ok : Bool)
  deriving DecidableEq, Repr

/-- lorawan_event (main.rs:109-150), the Event Dispatch Task.
hE is the external protocol state machine's transition
lorawan.handle_event(event) -> (new_state, response).
Order of the source: enable the RNG clock on the RCC (this write precedes
the take and is therefore present in every outcome's rngClockEnabled field
and first in every trace); take() the protocol-state slot; if empty, fall
through (the defmt logging match has no other effect and is omitted);
otherwise run the transition, forward the response with
spawn(..).unwrap() — a saturated response queue panics — and replace the
new state into the slot. -/
def lorawan_event {P : Type}
    (hE : P → LorawanEvent → P × Except LorawanError LorawanResponse)
    (s : SysState P) (event : LorawanEvent) :
    Option (SysState P) × List Eff :=
  match s.lorawan with
  | none =>
    (some { s with rngClockEnabled := true },
     [.enableRngClock, .slotTake false])
  | some lorawan =>
    let hres := hE lorawan event
    match (spawnLorawanResponse { s with rngClockEnabled := true, lorawan := none }
        hres.2 : Except Unit (SysState P)) with
    | .error _ => (none, [.enableRngClock, .slotTake true, .transition])
    | .ok s2 =>
      (some { s2 with lorawan := some hres.1 },
       [.enableRngClock, .slotTake true, .transition, .slotReplace])

/-- u16::try_from on a u32 millisecond count: succeeds exactly on values
below 2^16. -/
def u16_try_from (ms : Nat) : Option Nat :=
  if ms < 65536 then some ms else none

/-- The payload-decode test of the DownlinkReceived branch:
matches if let Ok(FRMPayload::Data(..)) = downlink.frm_payload(). -/
def isDataPayload : Except Nat FRMPayload → Bool
  | .ok (.Data _) => true
  | _ => false

/-- lorawan_response (main.rs:152-230), the Response Handling Task.
td is the external take_data_downlink of the protocol state.
Branches in source order:
* TimeoutRequest ms: spawn set_timer(u16::try_from(ms).unwrap()) — the
  conversion panics above 65535; the spawn's own result is discarded;
* JoinSuccess: take() the slot and, when present, immediately write the
  same state back;
* ReadyToSend / NoAck / NoUpdate / UplinkSending / JoinRequestSending:
  logging only;
* DownlinkReceived: take() the slot; when present call take_data_downlink
  once, best-effort decode the payload and enumerate the FOpts MAC
  commands (logging only), then unconditionally write the mutated state
  back;
* NoJoinAccept / SessionExpired: spawn lorawan_event(NewSessionRequest)
  with unwrap() — a saturated event queue panics;
* every Err variant: logging only. -/
def lorawan_response {P : Type} (td : P → P × Option Downlink)
    (s : SysState P) (response : Except LorawanError LorawanResponse) :
    Option (SysState P) × List Eff :=
  match response with
  | .ok (.TimeoutRequest ms) =>
    match u16_try_from ms with
    | none => (none, [])
    | some v =>
      match spawnSetTimer s v with
      | .ok s1 => (some s1, [.spawnTimer v])
      | .error _ => (some s, [.spawnTimer v])
  | .ok .JoinSuccess =>
    match s.lorawan with
    | some lorawan =>
      (some { s with lorawan := some lorawan }, [.slotTake true, .slotReplace])
    | none => (some s, [.slotTake false])
  | .ok .ReadyToSend => (some s, [])
  | .ok (.DownlinkReceived _) =>
    match s.lorawan with
    | some lorawan =>
      let tdres := td lorawan
      let lw := tdres.1
      let tr := match tdres.2 with
        | some downlink =>
          [Eff.slotTake true, Eff.takeDownlink true,
           Eff.decodeData (isDataPayload downlink.frm)]
        | none => [Eff.slotTake true, Eff.takeDownlink false]
      (some { s with lorawan := some lw }, tr ++ [Eff.slotReplace])
    | none => (some s, [.slotTake false])
  | .ok .NoAck => (some s, [])
  | .ok .NoJoinAccept =>
    match spawnLorawanEvent s .NewSessionRequest with
    | .ok s1 => (some s1, [.spawnEvent .NewSessionRequest])
    | .error _ => (none, [.spawnEvent .NewSessionRequest])
  | .ok .SessionExpired =>
    match spawnLorawanEvent s .NewSessionRequest with
    | .ok s1 => (some s1, [.spawnEvent .NewSessionRequest])
    | .error _ => (none, [.spawnEvent .NewSessionRequest])
  | .ok .NoUpdate => (some s, [])
  | .ok (.UplinkSending _) => (some s, [])
  | .ok .JoinRequestSending => (some s, [])
  | .error _ => (some s, [])

/-- lptim.start(ms): issue a single-shot countdown of ms ticks to the
peripheral (recorded in the start log; the hardware's counting happens
outside any task). -/
def LpTim.start (t : LpTim) (ms : Nat) : LpTim :=
  { t with startCalls := t.startCalls ++ [ms] }

/-- set_timer (main.rs:232-244), the Timer Arming Task: if the timer's
current count is nonzero the request is only logged as a conflict and
nothing changes; otherwise the peripheral is started for ms ticks. -/
def set_timer {P : Type} (s : SysState P) (ms : Nat) : SysState P :=
  if s.lptim.cnt ≠ 0 then s
  else { s with lptim := s.lptim.start ms }

/-- timer_irq (main.rs:246-251), the LPTIM1 interrupt handler: clear the
compare-match flag via set_icr, then spawn
lorawan_event(TimeoutFired).unwrap() — a saturated event queue panics. -/
def timer_irq {P : Type} (s : SysState P) : Option (SysState P) :=
  let s1 := { s with lptim := { s.lptim with cmpm := false } }
  match spawnLorawanEvent s1 .TimeoutFired with
  | .ok s2 => some s2
  | .error _ => none

/-- radio_irq (main.rs:253-260), the RADIO_IRQ_BUSY interrupt handler:
read the radio's irq_status (the unwrap on the SPI read panics on a bus
error), clear the flags on the peripheral (a register write outside
SysState), then spawn lorawan_event(RadioEvent(PhyEvent(..))) — the
spawn's Result is discarded, so a saturated event queue drops the event
without any failure. -/
def radio_irq {P : Type} (readIrq : Except Unit (Nat × Nat))
    (s : SysState P) : Option (SysState P) :=
  match readIrq with
  | .error _ => none
  | .ok st =>
    match spawnLorawanEvent s
        (.RadioEvent (.PhyEvent (.Irq st.1 st.2))) with
    | .ok s1 => some s1
    | .error _ => some s

/-! Concrete fixtures used by witnesses and counterexamples.  The protocol
state is instantiated at Unit; transition and downlink-extraction stubs
exercise the branch each witness is about. -/

/-- An idle LPTIM1: count zero, compare-match flag clear, no starts yet. -/
def lptim0 : LpTim := ⟨0, false, []⟩

/-- Base store: protocol state present, RNG clock off, all queues empty. -/
def s0 : SysState Unit := ⟨some (), false, lptim0, [], [], []⟩

/-- Store with the protocol-state slot empty. -/
def sEmpty : SysState Unit := ⟨none, false, lptim0, [], [], []⟩

/-- Store whose event and response queues are both saturated. -/
def sSat : SysState Unit :=
  ⟨some (), false, lptim0, [LorawanEvent.TimeoutFired],
   [Except.ok LorawanResponse.NoUpdate], []⟩

/-- Store whose timer is mid-countdown (count 42). -/
def sBusy : SysState Unit := ⟨some (), false, ⟨42, false, []⟩, [], [], []⟩

/-- Transition stub answering NoUpdate. -/
def hOk : Unit → LorawanEvent → Unit × Except LorawanError LorawanResponse :=
  fun p _ => (p, Except.ok LorawanResponse.NoUpdate)

/-- Transition stub reporting a radio error. -/
def hErr : Unit → LorawanEvent → Unit × Except LorawanError LorawanResponse :=
  fun p _ => (p, Except.error LorawanError.Radio)

/-- Downlink-extraction stub with no pending downlink. -/
def tdNone : Unit → Unit × Option Downlink := fun p => (p, none)

/-- Downlink-extraction stub whose pending downlink has three MAC-command
options and a malformed (undecodable) FRM payload. -/
def tdBad : Unit → Unit × Option Downlink :=
  fun p => (p, some ⟨[1, 2, 3], Except.error 7⟩)

/-- Result state of a successful dispatch on the error-reporting stub:
clock enabled, the error forwarded, the (unchanged) state restored. -/
def wS1 : SysState Unit :=
  ⟨some (), true, lptim0, [], [Except.error LorawanError.Radio], []⟩

/-- Modelled from the spec: the TimerRequest range of the external
protocol state machine's interface — a timeout duration in milliseconds
is valid only within the timer's counter width, 0 to 65535.  The producer
of TimeoutRequest values (the lorawan-device library) is outside this
repository, so its range guarantee is taken from the spec's data model. -/
def TimerRequestInRange (ms : Nat) : Prop := ms ≤ 65535

/-! Helper lemmas about the spawn queues. -/

theorem spawnLorawanEvent_ok {P : Type} {s s' : SysState P} {e : LorawanEvent}
    (h : spawnLorawanEvent s e = Except.ok s') :
    s' = { s with pendingEvents := s.pendingEvents ++ [e] } := by
  unfold spawnLorawanEvent at h
  split at h
  · exact (Except.ok.inj h).symm
  · exact Except.noConfusion h

theorem spawnLorawanEvent_err {P : Type} (s : SysState P) (e : LorawanEvent)
    (h : eventCapacity ≤ s.pendingEvents.length) :
    spawnLorawanEvent s e = Except.error () := by
  unfold spawnLorawanEvent
  rw [if_neg]
  omega

theorem spawnLorawanResponse_ok {P : Type} {s s' : SysState P}
    {r : Except LorawanError LorawanResponse}
    (h : spawnLorawanResponse s r = Except.ok s') :
    s' = { s with pendingResponses := s.pendingResponses ++ [r] } := by
  unfold spawnLorawanResponse at h
  split at h
  · exact (Except.ok.inj h).symm
  · exact Except.noConfusion h

theorem spawnLorawanResponse_err {P : Type} (s : SysState P)
    (r : Except LorawanError LorawanResponse)
    (h : responseCapacity ≤ s.pendingResponses.length) :
    spawnLorawanResponse s r = Except.error () := by
  unfold spawnLorawanResponse
  rw [if_neg]
  omega

theorem spawnSetTimer_ok {P : Type} {s s' : SysState P} {ms : Nat}
    (h : spawnSetTimer s ms = Except.ok s') :
    s' = { s with pendingTimerReqs := s.pendingTimerReqs ++ [ms] } := by
  unfold spawnSetTimer at h
  split at h
  · exact (Except.ok.inj h).symm
  · exact Except.noConfusion h

theorem spawnSetTimer_ok_of_room {P : Type} (s : SysState P) (ms : Nat)
    (h : s.pendingTimerReqs.length < timerCapacity) :
    spawnSetTimer s ms
      = Except.ok { s with pendingTimerReqs := s.pendingTimerReqs ++ [ms] } := by
  unfold spawnSetTimer
  rw [if_pos h]


/-- C1: whenever the Event Dispatch Task finds the ProtocolState present
and returns, the slot again holds exactly the new state produced by the
transition — for every transition function, so in particular also when
the transition's result is an error. -/
theorem lorawan_event_restores_state {P : Type}
    (hE : P → LorawanEvent → P × Except LorawanError LorawanResponse)
    (s : SysState P) (e : LorawanEvent) (p : P) (hp : s.lorawan = some p) :
    ∀ s', (lorawan_event hE s e).1 = some s' →
      s'.lorawan = some (hE p e).1 := by
  intro s' h
  simp only [lorawan_event, hp] at h
  split at h
  · exact Option.noConfusion h
  · obtain rfl := Option.some.inj h
    rfl


/-- C1 witness: a dispatch whose transition reports a radio error still
restores the state into the slot. -/
theorem lorawan_event_restores_state_witness :
    (lorawan_event hErr s0 LorawanEvent.NewSessionRequest).1 = some wS1 ∧
    wS1.lorawan = some (hErr () LorawanEvent.NewSessionRequest).1 :=
  ⟨by decide,
   lorawan_event_restores_state hErr s0 LorawanEvent.NewSessionRequest ()
     (by decide) wS1 (by decide)⟩

/-- C6: when the ProtocolState slot is empty, the event is silently
dropped — the task returns normally having only enabled the RNG clock;
the slot stays empty, nothing is forwarded, and the result does not
depend on the transition function at all. -/
theorem event_dropped_when_absent {P : Type}
    (hE : P → LorawanEvent → P × Except LorawanError LorawanResponse)
    (s : SysState P) (e : LorawanEvent) (hn : s.lorawan = none) :
    lorawan_event hE s e
      = (some { s with rngClockEnabled := true },
         [Eff.enableRngClock, Eff.slotTake false]) := by
  obtain ⟨lw, rng, lt, pe, pr, pt⟩ := s
  cases lw with
  | none => rfl
  | some q => simp at hn

/-- C6 witness: dropping a TimeoutFired event on an empty slot. -/
theorem event_dropped_when_absent_witness :
    lorawan_event hOk sEmpty LorawanEvent.TimeoutFired
      = (some { sEmpty with rngClockEnabled := true },
         [Eff.enableRngClock, Eff.slotTake false]) :=
  event_dropped_when_absent hOk sEmpty LorawanEvent.TimeoutFired (by decide)

/-- C10: every dispatch invocation enables the RNG clock before examining
the slot — the trace begins with enableRngClock and only then the take —
and every normal return leaves the clock enabled, also when the slot was
empty and the event was dropped. -/
theorem rng_clock_enabled_first {P : Type}
    (hE : P → LorawanEvent → P × Except LorawanError LorawanResponse)
    (s : SysState P) (e : LorawanEvent) :
    (lorawan_event hE s e).2.take 2
        = [Eff.enableRngClock, Eff.slotTake s.lorawan.isSome] ∧
    (∀ s', (lorawan_event hE s e).1 = some s' →
      s'.rngClockEnabled = true) := by
  cases hl : s.lorawan with
  | none =>
    simp only [lorawan_event, hl]
    refine ⟨rfl, ?_⟩
    intro s' h
    obtain rfl := Option.some.inj h
    rfl
  | some q =>
    simp only [lorawan_event, hl]
    constructor
    · split <;> rfl
    · intro s' h
      split at h
      · exact Option.noConfusion h
      · rename_i s2 hsp
        obtain rfl := Option.some.inj h
        have h2 := spawnLorawanResponse_ok hsp
        subst h2
        rfl

/-- C10 witness: with the slot empty the clock-enable still happens and
the dropped-event return carries it. -/
theorem rng_clock_enabled_first_witness :
    (lorawan_event hOk sEmpty LorawanEvent.NewSessionRequest).1
        = some { sEmpty with rngClockEnabled := true } ∧
    ({ sEmpty with rngClockEnabled := true } : SysState Unit).rngClockEnabled
        = true :=
  ⟨by decide,
   (rng_clock_enabled_first hOk sEmpty LorawanEvent.NewSessionRequest).2
     { sEmpty with rngClockEnabled := true } (by decide)⟩

/-- C9: the entropy accessor is total — it returns the RNG peripheral's
value whenever the read succeeds and the fixed fallback constant
0xFAFAFAFA on any internal RNG failure, never an error. -/
theorem get_random_u32_total :
    (∀ v : Nat, get_random_u32 (Except.ok v) = v) ∧
    (∀ e : RngError, get_random_u32 (Except.error e) = 0xFAFAFAFA) :=
  ⟨fun _ => rfl, fun _ => rfl⟩

/-- C3: the Timer Arming Task starts a countdown of ms ticks exactly when
the timer's current count is zero; a request against a running timer
changes nothing at all — no start is issued and the whole timer state,
including its count, is untouched. -/
theorem set_timer_arms_iff_idle {P : Type} (s : SysState P) (ms : Nat) :
    (s.lptim.cnt = 0 →
      set_timer s ms
        = { s with lptim :=
              { s.lptim with startCalls := s.lptim.startCalls ++ [ms] } }) ∧
    (s.lptim.cnt ≠ 0 → set_timer s ms = s) ∧
    ((set_timer s ms).lptim.startCalls ≠ s.lptim.startCalls ↔
      s.lptim.cnt = 0) := by
  unfold set_timer LpTim.start
  by_cases hc : s.lptim.cnt = 0
  · simp [hc]
  · simp [hc]

/-- C3 witness: an idle timer is armed for 5000 ticks; a timer
mid-countdown rejects a request and is left untouched. -/
theorem set_timer_arms_iff_idle_witness :
    set_timer s0 5000
      = { s0 with lptim :=
            { s0.lptim with startCalls := s0.lptim.startCalls ++ [5000] } } ∧
    set_timer sBusy 7 = sBusy :=
  ⟨(set_timer_arms_iff_idle s0 5000).1 (by decide),
   (set_timer_arms_iff_idle sBusy 7).2.1 (by decide)⟩

/-- Writing back the value a slot already holds leaves the store
unchanged. -/
theorem SysState.update_lorawan_self {P : Type} (s : SysState P)
    (v : Option P) (h : s.lorawan = v) : { s with lorawan := v } = s := by
  cases s
  subst h
  rfl

/-- C2: every branch of the Response Handling Task that takes the
ProtocolState restores it before returning — on every normal return the
slot is occupied exactly when it was occupied before, for every
downlink-extraction result, so in particular on a malformed payload
decode and on a missing pending downlink. -/
theorem lorawan_response_preserves_slot {P : Type}
    (td : P → P × Option Downlink) (s : SysState P)
    (r : Except LorawanError LorawanResponse) :
    ∀ s', (lorawan_response td s r).1 = some s' →
      s'.lorawan.isSome = s.lorawan.isSome := by
  intro s' h
  cases r with
  | error e =>
    simp only [lorawan_response] at h
    obtain rfl := Option.some.inj h
    rfl
  | ok resp =>
    cases resp with
    | TimeoutRequest ms =>
      simp only [lorawan_response] at h
      split at h
      · exact Option.noConfusion h
      · split at h
        · rename_i s1 hsp
          obtain rfl := Option.some.inj h
          rw [spawnSetTimer_ok hsp]
        · obtain rfl := Option.some.inj h
          rfl
    | JoinSuccess =>
      simp only [lorawan_response] at h
      split at h
      · rename_i lw hl
        obtain rfl := Option.some.inj h
        simp [hl]
      · obtain rfl := Option.some.inj h
        rfl
    | DownlinkReceived fcnt =>
      simp only [lorawan_response] at h
      split at h
      · rename_i lw hl
        obtain rfl := Option.some.inj h
        simp [hl]
      · obtain rfl := Option.some.inj h
        rfl
    | NoJoinAccept =>
      simp only [lorawan_response] at h
      split at h
      · rename_i s1 hsp
        obtain rfl := Option.some.inj h
        rw [spawnLorawanEvent_ok hsp]
      · exact Option.noConfusion h
    | SessionExpired =>
      simp only [lorawan_response] at h
      split at h
      · rename_i s1 hsp
        obtain rfl := Option.some.inj h
        rw [spawnLorawanEvent_ok hsp]
      · exact Option.noConfusion h
    | ReadyToSend =>
      simp only [lorawan_response] at h
      obtain rfl := Option.some.inj h
      rfl
    | NoAck =>
      simp only [lorawan_response] at h
      obtain rfl := Option.some.inj h
      rfl
    | NoUpdate =>
      simp only [lorawan_response] at h
      obtain rfl := Option.some.inj h
      rfl
    | UplinkSending f =>
      simp only [lorawan_response] at h
      obtain rfl := Option.some.inj h
      rfl
    | JoinRequestSending =>
      simp only [lorawan_response] at h
      obtain rfl := Option.some.inj h
      rfl

/-- C2 witness: a DownlinkReceived response whose pending downlink has a
malformed payload still restores the state into the slot. -/
theorem lorawan_response_preserves_slot_witness :
    (lorawan_response tdBad s0
        (Except.ok (LorawanResponse.DownlinkReceived 7))).1 = some s0 ∧
    s0.lorawan.isSome = s0.lorawan.isSome :=
  ⟨by decide,
   lorawan_response_preserves_slot tdBad s0
     (Except.ok (LorawanResponse.DownlinkReceived 7)) s0 (by decide)⟩


/-- C4: for a TimeoutRequest within the timer's representable range the
u16 conversion succeeds and the Response Handling Task issues exactly one
timer-arm request for exactly ms ticks, never failing; with room in the
timer task's queue the request is enqueued. -/
theorem timeout_request_single_arm {P : Type}
    (td : P → P × Option Downlink) (s : SysState P) (ms : Nat)
    (h : TimerRequestInRange ms) :
    u16_try_from ms = some ms ∧
    (lorawan_response td s (Except.ok (LorawanResponse.TimeoutRequest ms))).2
      = [Eff.spawnTimer ms] ∧
    ((lorawan_response td s
        (Except.ok (LorawanResponse.TimeoutRequest ms))).1).isSome = true ∧
    (s.pendingTimerReqs.length < timerCapacity →
      (lorawan_response td s (Except.ok (LorawanResponse.TimeoutRequest ms))).1
        = some { s with pendingTimerReqs := s.pendingTimerReqs ++ [ms] }) := by
  have hu : u16_try_from ms = some ms := by
    unfold u16_try_from
    rw [if_pos]
    unfold TimerRequestInRange at h
    omega
  refine ⟨hu, ?_, ?_, ?_⟩
  · simp only [lorawan_response, hu]
    split <;> rfl
  · simp only [lorawan_response, hu]
    split <;> rfl
  · intro hroom
    simp only [lorawan_response, hu, spawnSetTimer_ok_of_room s ms hroom]

/-- C4 witness: a 5000 ms timeout request converts and issues one arm
request for 5000 ticks. -/
theorem timeout_request_single_arm_witness :
    u16_try_from 5000 = some 5000 ∧
    (lorawan_response tdNone s0
        (Except.ok (LorawanResponse.TimeoutRequest 5000))).2
      = [Eff.spawnTimer 5000] :=
  ⟨(timeout_request_single_arm tdNone s0 5000
      (by unfold TimerRequestInRange; omega)).1,
   (timeout_request_single_arm tdNone s0 5000
      (by unfold TimerRequestInRange; omega)).2.1⟩

/-- C5: NoJoinAccept or SessionExpired re-issue exactly one
NewSessionRequest into the dispatch task's queue on every normal return;
no other response or error ever adds to that queue. -/
theorem new_session_reissue {P : Type}
    (td : P → P × Option Downlink) (s : SysState P)
    (r : Except LorawanError LorawanResponse) :
    ((r = Except.ok LorawanResponse.NoJoinAccept ∨
      r = Except.ok LorawanResponse.SessionExpired) →
      ∀ s', (lorawan_response td s r).1 = some s' →
        s'.pendingEvents
          = s.pendingEvents ++ [LorawanEvent.NewSessionRequest]) ∧
    ((r ≠ Except.ok LorawanResponse.NoJoinAccept ∧
      r ≠ Except.ok LorawanResponse.SessionExpired) →
      ∀ s', (lorawan_response td s r).1 = some s' →
        s'.pendingEvents = s.pendingEvents) := by
  constructor
  · rintro (rfl | rfl) s' h <;>
    · simp only [lorawan_response] at h
      split at h
      · rename_i s1 hsp
        obtain rfl := Option.some.inj h
        rw [spawnLorawanEvent_ok hsp]
      · exact Option.noConfusion h
  · rintro ⟨hn1, hn2⟩ s' h
    cases r with
    | error e =>
      simp only [lorawan_response] at h
      obtain rfl := Option.some.inj h
      rfl
    | ok resp =>
      cases resp with
      | NoJoinAccept => exact absurd rfl hn1
      | SessionExpired => exact absurd rfl hn2
      | TimeoutRequest ms =>
        simp only [lorawan_response] at h
        split at h
        · exact Option.noConfusion h
        · split at h
          · rename_i s1 hsp
            obtain rfl := Option.some.inj h
            rw [spawnSetTimer_ok hsp]
          · obtain rfl := Option.some.inj h
            rfl
      | JoinSuccess =>
        simp only [lorawan_response] at h
        split at h
        · obtain rfl := Option.some.inj h
          rfl
        · obtain rfl := Option.some.inj h
          rfl
      | DownlinkReceived fcnt =>
        simp only [lorawan_response] at h
        split at h
        · obtain rfl := Option.some.inj h
          rfl
        · obtain rfl := Option.some.inj h
          rfl
      | ReadyToSend =>
        simp only [lorawan_response] at h
        obtain rfl := Option.some.inj h
        rfl
      | NoAck =>
        simp only [lorawan_response] at h
        obtain rfl := Option.some.inj h
        rfl
      | NoUpdate =>
        simp only [lorawan_response] at h
        obtain rfl := Option.some.inj h
        rfl
      | UplinkSending f =>
        simp only [lorawan_response] at h
        obtain rfl := Option.some.inj h
        rfl
      | JoinRequestSending =>
        simp only [lorawan_response] at h
        obtain rfl := Option.some.inj h
        rfl

/-- C5 witness: NoJoinAccept on the base store enqueues exactly one
NewSessionRequest for the dispatch task. -/
theorem new_session_reissue_witness :
    (lorawan_response tdNone s0 (Except.ok LorawanResponse.NoJoinAccept)).1
        = some { s0 with pendingEvents := [LorawanEvent.NewSessionRequest] } ∧
    ({ s0 with pendingEvents := [LorawanEvent.NewSessionRequest] } :
        SysState Unit).pendingEvents
      = s0.pendingEvents ++ [LorawanEvent.NewSessionRequest] :=
  ⟨by decide,
   (new_session_reissue tdNone s0
      (Except.ok LorawanResponse.NoJoinAccept)).1 (Or.inl rfl)
     { s0 with pendingEvents := [LorawanEvent.NewSessionRequest] }
     (by decide)⟩

/-- C7 counterexample: the radio interrupt handler's spawn result is
discarded in the source (main.rs:259 has no unwrap), so invoking it with
the dispatch queue already saturated returns normally with the store
unchanged — the radio event is silently discarded instead of the claimed
fatal reset. -/
theorem radio_irq_overflow_silently_drops :
    sSat.pendingEvents.length = eventCapacity ∧
    radio_irq (Except.ok (3, 5)) sSat = some sSat := by
  constructor
  · rfl
  · rfl

/-- A saturated dispatch queue never accepts a spawn. -/
theorem spawnLorawanEvent_not_ok {P : Type} {s s' : SysState P}
    {e : LorawanEvent} (h : spawnLorawanEvent s e = Except.ok s')
    (hsat : eventCapacity ≤ s.pendingEvents.length) : False := by
  unfold spawnLorawanEvent at h
  rw [if_neg (by omega)] at h
  exact Except.noConfusion h

/-- C7 amended: a saturated queue is fatal (unwrap panic, hence reset) at
the timer interrupt handler, at the dispatch task's response forwarding
and at the response task's NewSessionRequest re-issue; at the radio
interrupt handler the spawn result is discarded, so saturation silently
drops the event and the handler returns normally with the store
unchanged. -/
theorem dispatch_overflow_policy {P : Type}
    (hE : P → LorawanEvent → P × Except LorawanError LorawanResponse)
    (td : P → P × Option Downlink) (s : SysState P) (p : P)
    (st irq : Nat) (e : LorawanEvent) :
    (eventCapacity ≤ s.pendingEvents.length → timer_irq s = none) ∧
    (s.lorawan = some p → responseCapacity ≤ s.pendingResponses.length →
      (lorawan_event hE s e).1 = none) ∧
    (eventCapacity ≤ s.pendingEvents.length →
      (lorawan_response td s (Except.ok LorawanResponse.NoJoinAccept)).1
          = none ∧
      (lorawan_response td s (Except.ok LorawanResponse.SessionExpired)).1
          = none) ∧
    (eventCapacity ≤ s.pendingEvents.length →
      radio_irq (Except.ok (st, irq)) s = some s) := by
  refine ⟨?_, ?_, ?_, ?_⟩
  · intro hsat
    simp only [timer_irq]
    split
    · rename_i s2 hsp
      exact (spawnLorawanEvent_not_ok hsp hsat).elim
    · rfl
  · intro hp hsat
    simp only [lorawan_event, hp]
    split
    · rfl
    · rename_i s2 hsp
      have herr := spawnLorawanResponse_err
        ({ s with rngClockEnabled := true, lorawan := none } : SysState P)
        (hE p e).2 hsat
      rw [herr] at hsp
      exact Except.noConfusion hsp
  · intro hsat
    constructor <;>
    · simp only [lorawan_response]
      split
      · rename_i s1 hsp
        rw [spawnLorawanEvent_err s LorawanEvent.NewSessionRequest hsat] at hsp
        exact Except.noConfusion hsp
      · rfl
  · intro hsat
    simp only [radio_irq]
    split
    · rename_i s1 hsp
      exact (spawnLorawanEvent_not_ok hsp hsat).elim
    · rfl

/-- C7 witness: with both queues saturated, the timer interrupt, the
dispatch task and the response task's re-issue all panic, while the radio
interrupt returns normally, dropping its event. -/
theorem dispatch_overflow_policy_witness :
    timer_irq sSat = none ∧
    (lorawan_event hOk sSat LorawanEvent.TimeoutFired).1 = none ∧
    (lorawan_response tdNone sSat (Except.ok LorawanResponse.NoJoinAccept)).1
        = none ∧
    radio_irq (Except.ok (7, 9)) sSat = some sSat :=
  ⟨(dispatch_overflow_policy hOk tdNone sSat () 7 9
      LorawanEvent.TimeoutFired).1 (by decide),
   (dispatch_overflow_policy hOk tdNone sSat () 7 9
      LorawanEvent.TimeoutFired).2.1 (by decide) (by decide),
   ((dispatch_overflow_policy hOk tdNone sSat () 7 9
      LorawanEvent.TimeoutFired).2.2.1 (by decide)).1,
   (dispatch_overflow_policy hOk tdNone sSat () 7 9
      LorawanEvent.TimeoutFired).2.2.2 (by decide)⟩

/-- C8 counterexample: the JoinSuccess branch (main.rs:163-167) also
takes the ProtocolState out of the store — its trace on a present state
is a take followed by a replace — so DownlinkReceived is not the only
branch that takes. -/
theorem join_success_takes_state :
    (lorawan_response tdNone s0 (Except.ok LorawanResponse.JoinSuccess)).2
      = [Eff.slotTake true, Eff.slotReplace] := by decide

/-- C8 amended: DownlinkReceived and JoinSuccess are the only response
branches that take the ProtocolState out of the store; JoinSuccess
immediately restores the identical state, and every other response and
error branch leaves the slot exactly as it was. -/
theorem slot_take_only_join_and_downlink {P : Type}
    (td : P → P × Option Downlink) (s : SysState P)
    (r : Except LorawanError LorawanResponse) :
    (Eff.slotTake true ∈ (lorawan_response td s r).2 →
      r = Except.ok LorawanResponse.JoinSuccess ∨
      ∃ f, r = Except.ok (LorawanResponse.DownlinkReceived f)) ∧
    (lorawan_response td s (Except.ok LorawanResponse.JoinSuccess)).1
        = some s ∧
    ((r ≠ Except.ok LorawanResponse.JoinSuccess ∧
      (∀ f, r ≠ Except.ok (LorawanResponse.DownlinkReceived f))) →
      ∀ s', (lorawan_response td s r).1 = some s' →
        s'.lorawan = s.lorawan) := by
  refine ⟨?_, ?_, ?_⟩
  · intro hmem
    cases r with
    | error e => simp [lorawan_response] at hmem
    | ok resp =>
      cases resp with
      | JoinSuccess => exact Or.inl rfl
      | DownlinkReceived f => exact Or.inr ⟨f, rfl⟩
      | TimeoutRequest ms =>
        exfalso
        simp only [lorawan_response] at hmem
        split at hmem
        · simp at hmem
        · split at hmem <;> simp at hmem
      | NoJoinAccept =>
        exfalso
        simp only [lorawan_response] at hmem
        split at hmem <;> simp at hmem
      | SessionExpired =>
        exfalso
        simp only [lorawan_response] at hmem
        split at hmem <;> simp at hmem
      | ReadyToSend => simp [lorawan_response] at hmem
      | NoAck => simp [lorawan_response] at hmem
      | NoUpdate => simp [lorawan_response] at hmem
      | UplinkSending f => simp [lorawan_response] at hmem
      | JoinRequestSending => simp [lorawan_response] at hmem
  · simp only [lorawan_response]
    split
    · rename_i lw hl
      rw [SysState.update_lorawan_self s (some lw) hl]
    · rfl
  · rintro ⟨hn1, hn2⟩ s' h
    cases r with
    | error e =>
      simp only [lorawan_response] at h
      obtain rfl := Option.some.inj h
      rfl
    | ok resp =>
      cases resp with
      | JoinSuccess => exact absurd rfl hn1
      | DownlinkReceived f => exact absurd rfl (hn2 f)
      | TimeoutRequest ms =>
        simp only [lorawan_response] at h
        split at h
        · exact Option.noConfusion h
        · split at h
          · rename_i s1 hsp
            obtain rfl := Option.some.inj h
            rw [spawnSetTimer_ok hsp]
          · obtain rfl := Option.some.inj h
            rfl
      | NoJoinAccept =>
        simp only [lorawan_response] at h
        split at h
        · rename_i s1 hsp
          obtain rfl := Option.some.inj h
          rw [spawnLorawanEvent_ok hsp]
        · exact Option.noConfusion h
      | SessionExpired =>
        simp only [lorawan_response] at h
        split at h
        · rename_i s1 hsp
          obtain rfl := Option.some.inj h
          rw [spawnLorawanEvent_ok hsp]
        · exact Option.noConfusion h
      | ReadyToSend =>
        simp only [lorawan_response] at h
        obtain rfl := Option.some.inj h
        rfl
      | NoAck =>
        simp only [lorawan_response] at h
        obtain rfl := Option.some.inj h
        rfl
      | NoUpdate =>
        simp only [lorawan_response] at h
        obtain rfl := Option.some.inj h
        rfl
      | UplinkSending f =>
        simp only [lorawan_response] at h
        obtain rfl := Option.some.inj h
        rfl
      | JoinRequestSending =>
        simp only [lorawan_response] at h
        obtain rfl := Option.some.inj h
        rfl

/-- C8 amended witness: JoinSuccess both takes (take in its trace) and
restores the identical store; a branch that is neither JoinSuccess nor
DownlinkReceived — here TimeoutRequest — leaves the slot as it was. -/
theorem slot_take_only_join_and_downlink_witness :
    ((Except.ok LorawanResponse.JoinSuccess :
        Except LorawanError LorawanResponse)
        = Except.ok LorawanResponse.JoinSuccess ∨
      ∃ f, (Except.ok LorawanResponse.JoinSuccess :
        Except LorawanError LorawanResponse)
        = Except.ok (LorawanResponse.DownlinkReceived f)) ∧
    (lorawan_response tdNone s0 (Except.ok LorawanResponse.JoinSuccess)).1
        = some s0 ∧
    ({ s0 with pendingTimerReqs := [10] } : SysState Unit).lorawan
        = s0.lorawan :=
  ⟨(slot_take_only_join_and_downlink tdNone s0
      (Except.ok LorawanResponse.JoinSuccess)).1 (by decide),
   ⟨(slot_take_only_join_and_downlink tdNone s0
      (Except.ok LorawanResponse.JoinSuccess)).2.1,
    (slot_take_only_join_and_downlink tdNone s0
      (Except.ok (LorawanResponse.TimeoutRequest 10))).2.2
     (And.intro (fun hh => nomatch hh) (fun f hh => nomatch hh))
     ({ s0 with pendingTimerReqs := [10] } : SysState Unit) (by decide)⟩⟩
